import Mathlib

/-!
Shallow embedding of the Space-Debris-Tracker repository
(src/code1.py and src/space_debris_tracker.py).

Modelling conventions:
* Python heterogeneous tuple fields are `PyVal` (an int or a string);
  a detection record, and a row loaded from the CSV file, is a `List PyVal`.
* OpenCV is external: a connected region found by `cv2.findContours`
  together with the values of `cv2.contourArea` and `cv2.moments` on it
  is abstracted as a `Contour` carrying `area`, `m00`, `m10`, `m01`.
  These are exact integers here; Python `int(a / b)` on exact values is
  truncation toward zero, embedded as `Int.tdiv`.
* An exception raised by the cv2 stage of `count_and_track_debris`
  (background subtraction / blur / threshold / findContours) is modelled
  by the pipeline input being `none`.  In `code1.py` the whole body is
  wrapped in `try/except` returning `[]`; in `space_debris_tracker.py`
  there is no handler, so the exception propagates (`Except.error`).
* The capture loop `update_debris_info` consumes a finite list of
  iteration inputs: each holds the result of `cap.read()`
  (`none` = `ret` was False), the timestamp `datetime.now()` would
  produce, and whether `cv2.waitKey` reported the q key.
* The CSV file is a `List (List String)` of rows of cell texts; a file
  that cannot be opened is `none`.  The per-field codec is abstract:
  `enc : String → String` gives the cell text stored for a field
  (`encrypt_message` composed with the csv writer's cell serialization),
  and `dec : String → Option String` is `decrypt_message`, with `none`
  for a decryption failure (the raised exception).
-/

/-- A Python value as it appears in a debris record: an int or a str. -/
inductive PyVal where
  | int (n : Int)
  | str (s : String)
deriving Repr, DecidableEq

/-- Python `str()` on a record field. -/
def pyStr : PyVal → String
  | .int n => toString n
  | .str s => s

/-- A connected region found by `cv2.findContours`, abstracted by the
values the per-contour cv2 calls return on it: `cv2.contourArea` and
the moments `m00`, `m10`, `m01` of `cv2.moments`. -/
structure Contour where
  area : Int
  m00 : Int
  m10 : Int
  m01 : Int
deriving Repr, DecidableEq

/-- The mutable state of a `SpaceDebrisTracker` instance (the fields
the in-scope methods read or write). -/
structure Tracker where
  frame_number : Nat
  debris_data : List (List PyVal)
  debris_counter : Nat
  min_area : Int
  max_area : Int
  thread_active : Bool
  visualization_enabled : Bool
deriving Repr, DecidableEq

/-- `SpaceDebrisTracker.__init__`: `min_area`, `max_area` and
`visualization_enabled` come from configuration (`code1.py`) or are the
literals 50 / 1000 / True (`space_debris_tracker.py`). -/
def initTracker (minA maxA : Int) (vis : Bool) : Tracker :=
  { frame_number := 0
    debris_data := []
    debris_counter := 0
    min_area := minA
    max_area := maxA
    thread_active := false
    visualization_enabled := vis }

/-- The tuple appended to `debris_positions` for a surviving contour:
`(self.frame_number, "Space Debris", now, int(m10/m00), int(m01/m00))`. -/
def mkDetection (fn : Nat) (now : String) (c : Contour) : List PyVal :=
  [PyVal.int (fn : Int), PyVal.str "Space Debris", PyVal.str now,
   PyVal.int (c.m10.tdiv c.m00), PyVal.int (c.m01.tdiv c.m00)]

/-- The `for contour in contours` loop of `count_and_track_debris` in
`code1.py` (lines 82–96): area filter, zero-moment guard, centroid,
append, `self.debris_counter += 1`.  Python appends to the accumulator
`debris_positions`; here the recursion conses the detection onto the
records produced by the rest of the list.  Returns the updated tracker
and `debris_positions`. -/
def countLoop (t : Tracker) (now : String) : List Contour → Tracker × List (List PyVal)
  | [] => (t, [])
  | c :: rest =>
    if t.min_area < c.area ∧ c.area < t.max_area then
      if c.m00 ≠ 0 then
        let d := mkDetection t.frame_number now c
        let r := countLoop { t with debris_counter := t.debris_counter + 1 } now rest
        (r.1, d :: r.2)
      else countLoop t now rest
    else countLoop t now rest

/-- `count_and_track_debris` of `code1.py` (lines 70–101): the whole body
is wrapped in `try/except`, returning `[]` on any exception.  A failure
of the cv2 stage is the input being `none`. -/
def count_and_track_debris (t : Tracker) (pipe : Option (List Contour))
    (now : String) : Tracker × List (List PyVal) :=
  match pipe with
  | none => (t, [])
  | some contours => countLoop t now contours

/-- The `for contour in contours` loop of `count_and_track_debris` in
`space_debris_tracker.py` (lines 31–45); textually the same loop as in
`code1.py`. -/
def countLoopV2 (t : Tracker) (now : String) : List Contour → Tracker × List (List PyVal)
  | [] => (t, [])
  | c :: rest =>
    if t.min_area < c.area ∧ c.area < t.max_area then
      if c.m00 ≠ 0 then
        let d := mkDetection t.frame_number now c
        let r := countLoopV2 { t with debris_counter := t.debris_counter + 1 } now rest
        (r.1, d :: r.2)
      else countLoopV2 t now rest
    else countLoopV2 t now rest

/-- `count_and_track_debris` of `space_debris_tracker.py` (lines 22–47):
no `try/except`, so a cv2-stage exception propagates to the caller. -/
def count_and_track_debris_v2 (t : Tracker) (pipe : Option (List Contour))
    (now : String) : Except Unit (Tracker × List (List PyVal)) :=
  match pipe with
  | none => Except.error ()
  | some contours => Except.ok (countLoopV2 t now contours)

/-- Whether a contour survives the area filter and the zero-moment
guard of the loop above. -/
def passes (t : Tracker) (c : Contour) : Bool :=
  (decide (t.min_area < c.area) && decide (c.area < t.max_area)) && (c.m00 != 0)

/-- What one iteration of the capture loop observes from the outside
world: `fetch` is the outcome of `self.cap.read()` (`none` when `ret`
is False), with a successful fetch carrying the pipeline outcome for
that frame (`none` = the cv2 stage raises); `now` is the timestamp
`datetime.now()` formats; `quitKey` is whether `cv2.waitKey(1)`
reports the q key. -/
structure FrameInput where
  fetch : Option (Option (List Contour))
  now : String
  quitKey : Bool
deriving Repr, DecidableEq

/-- The body of one successful iteration of `update_debris_info` in
`code1.py` (lines 113–117): `self.frame_number += 1`, run
`count_and_track_debris`, then `self.debris_data.extend(debris_info)`
under the lock.  Visualization draws on the frame only and changes no
tracker state. -/
def processFrame (t : Tracker) (pipe : Option (List Contour)) (now : String) : Tracker :=
  let t1 := { t with frame_number := t.frame_number + 1 }
  let r := count_and_track_debris t1 pipe now
  { r.1 with debris_data := r.1.debris_data ++ r.2 }

/-- `update_debris_info` of `code1.py` (lines 103–128), run over a finite
prefix of the device's fetch outcomes: while `thread_active`, read a
frame (break when the read fails), process it (`processFrame`), and
break when the quit key is seen. -/
def update_debris_info (t : Tracker) : List FrameInput → Tracker
  | [] => t
  | inp :: rest =>
    if t.thread_active then
      match inp.fetch with
      | none => t
      | some pipe =>
        let t3 := processFrame t pipe inp.now
        if inp.quitKey then t3 else update_debris_info t3 rest
    else t

/-- `update_debris_info` of `space_debris_tracker.py` (lines 49–69): the
same loop, except `count_and_track_debris` has no exception handler
there, so a cv2-stage exception propagates out of the loop
(`Except.error`), killing the capture thread. -/
def update_debris_info_v2 (t : Tracker) : List FrameInput → Except Unit Tracker
  | [] => Except.ok t
  | inp :: rest =>
    if t.thread_active then
      match inp.fetch with
      | none => Except.ok t
      | some pipe =>
        let t1 := { t with frame_number := t.frame_number + 1 }
        match count_and_track_debris_v2 t1 pipe inp.now with
        | Except.error e => Except.error e
        | Except.ok r =>
          let t3 := { r.1 with debris_data := r.1.debris_data ++ r.2 }
          if inp.quitKey then Except.ok t3 else update_debris_info_v2 t3 rest
    else Except.ok t

/-- `start_tracking`: sets `thread_active = True` and spawns the loop
thread (the loop itself is `update_debris_info`). -/
def start_tracking (t : Tracker) : Tracker :=
  { t with thread_active := true }

/-- `stop_tracking`: clears the flag (device release has no tracker-state
effect in scope). -/
def stop_tracking (t : Tracker) : Tracker :=
  { t with thread_active := false }

/-- `set_min_area`. -/
def set_min_area (t : Tracker) (a : Int) : Tracker :=
  { t with min_area := a }

/-- `set_max_area`. -/
def set_max_area (t : Tracker) (a : Int) : Tracker :=
  { t with max_area := a }

/-- `toggle_visualization`. -/
def toggle_visualization (t : Tracker) : Tracker :=
  { t with visualization_enabled := !t.visualization_enabled }

/-- The header row written by `save_debris_data`. -/
def csvHeader : List String :=
  ["FrameNumber", "DebrisName", "DetectionTime", "X", "Y"]

/-- `save_debris_data` (code1.py lines 146–159): header row, then one row
per record, each field passed through `str` and the per-field encoder
(`encrypt_message` composed with the csv cell serialization), in log
order.  Returns the rows of the written file. -/
def save_debris_data (enc : String → String) (t : Tracker) : List (List String) :=
  csvHeader :: t.debris_data.map (fun debris_info => debris_info.map (fun item => enc (pyStr item)))

/-- The list comprehension `[decrypt_message(item) for item in row]`:
decode the cells left to right; the first failure raises, aborting the
whole comprehension. -/
def decodeCells (dec : String → Option String) : List String → Option (List String)
  | [] => some []
  | s :: rest =>
    match dec s with
    | none => none
    | some v =>
      match decodeCells dec rest with
      | none => none
      | some vs => some (v :: vs)

/-- Decode a list of rows, failing on the first row any of whose cells
fails to decode (used only to state hypotheses about fully decodable
prefixes of a file). -/
def decodeRows (dec : String → Option String) : List (List String) → Option (List (List String))
  | [] => some []
  | row :: rest =>
    match decodeCells dec row with
    | none => none
    | some cells =>
      match decodeRows dec rest with
      | none => none
      | some rs => some (cells :: rs)

/-- The `for row in reader` loop of `load_debris_data`: decode every cell
of a row (an exception from `decrypt_message` stops the whole loop, so
on a failure the rows accumulated so far are what remains installed in
`self.debris_data`); each decoded row is appended as a tuple of strings. -/
def loadRows (dec : String → Option String) : List (List String) → List (List PyVal) → List (List PyVal)
  | [], acc => acc
  | row :: rest, acc =>
    match decodeCells dec row with
    | none => acc
    | some cells => loadRows dec rest (acc ++ [cells.map PyVal.str])

/-- `load_debris_data` (code1.py lines 161–175).  `file = none` models
`open` raising (caught before `self.debris_data` is touched).  With an
open file, `self.debris_data = []` runs first, then `next(reader)` skips
the header (`StopIteration` on an empty file is caught, leaving the
empty list), then rows are decoded and appended one by one; any
exception is caught at the method level, leaving whatever had been
accumulated. -/
def load_debris_data (dec : String → Option String) (t : Tracker)
    (file : Option (List (List String))) : Tracker :=
  match file with
  | none => t
  | some [] => { t with debris_data := [] }
  | some (_header :: dataRows) => { t with debris_data := loadRows dec dataRows [] }

/-- Run a sequence of `count_and_track_debris` calls (one per processed
frame), returning the final tracker and the batch of records each call
returned. -/
def runCounts (t : Tracker) : List (Option (List Contour) × String) → Tracker × List (List (List PyVal))
  | [] => (t, [])
  | (pipe, now) :: rest =>
    let r := count_and_track_debris t pipe now
    let s := runCounts r.1 rest
    (s.1, r.2 :: s.2)

/-- The frame-number field of a record (`debris[0]`), as read by
`plot_debris_counts`; 0 for a malformed record. -/
def recFrame : List PyVal → Int
  | PyVal.int n :: _ => n
  | _ => 0

/-! ## Lemmas about the detection loop -/

theorem passes_set_counter (t : Tracker) (n : Nat) :
    passes { t with debris_counter := n } = passes t := rfl

theorem passes_iff (t : Tracker) (c : Contour) :
    passes t c = true ↔ t.min_area < c.area ∧ c.area < t.max_area ∧ c.m00 ≠ 0 := by
  simp [passes, and_assoc]

theorem countLoop_records (t : Tracker) (now : String) (cs : List Contour) :
    (countLoop t now cs).2 = (cs.filter (passes t)).map (mkDetection t.frame_number now) := by
  induction cs generalizing t with
  | nil => simp [countLoop]
  | cons c rest ih =>
    by_cases harea : t.min_area < c.area ∧ c.area < t.max_area
    · by_cases hm : c.m00 ≠ 0
      · have hp : passes t c = true := by
          simp [passes, harea.1, harea.2, hm]
        simp [countLoop, if_pos harea, if_pos hm, ih, passes_set_counter,
          List.filter_cons, hp]
      · have hp : passes t c = false := by
          simp only [ne_eq, not_not] at hm
          simp [passes, hm]
        simp [countLoop, if_pos harea, if_neg hm, ih, List.filter_cons, hp]
    · have hp : passes t c = false := by
        rcases not_and_or.mp harea with h | h <;> simp [passes, h]
      simp [countLoop, if_neg harea, ih, List.filter_cons, hp]

theorem countLoop_counter (t : Tracker) (now : String) (cs : List Contour) :
    (countLoop t now cs).1.debris_counter =
      t.debris_counter + (countLoop t now cs).2.length := by
  induction cs generalizing t with
  | nil => simp [countLoop]
  | cons c rest ih =>
    by_cases harea : t.min_area < c.area ∧ c.area < t.max_area
    · by_cases hm : c.m00 ≠ 0
      · simp only [countLoop, if_pos harea, if_pos hm]
        rw [ih]
        simp only [List.length_cons]
        omega
      · simp only [countLoop, if_pos harea, if_neg hm]
        exact ih t
    · simp only [countLoop, if_neg harea]
      exact ih t

theorem countLoop_frame (t : Tracker) (now : String) (cs : List Contour) :
    (countLoop t now cs).1.frame_number = t.frame_number := by
  induction cs generalizing t with
  | nil => rfl
  | cons c rest ih =>
    by_cases harea : t.min_area < c.area ∧ c.area < t.max_area
    · by_cases hm : c.m00 ≠ 0
      · simp only [countLoop, if_pos harea, if_pos hm]
        exact ih _
      · simp only [countLoop, if_pos harea, if_neg hm]
        exact ih t
    · simp only [countLoop, if_neg harea]
      exact ih t

theorem countLoop_data (t : Tracker) (now : String) (cs : List Contour) :
    (countLoop t now cs).1.debris_data = t.debris_data := by
  induction cs generalizing t with
  | nil => rfl
  | cons c rest ih =>
    by_cases harea : t.min_area < c.area ∧ c.area < t.max_area
    · by_cases hm : c.m00 ≠ 0
      · simp only [countLoop, if_pos harea, if_pos hm]
        exact ih _
      · simp only [countLoop, if_pos harea, if_neg hm]
        exact ih t
    · simp only [countLoop, if_neg harea]
      exact ih t

theorem countLoop_active (t : Tracker) (now : String) (cs : List Contour) :
    (countLoop t now cs).1.thread_active = t.thread_active := by
  induction cs generalizing t with
  | nil => rfl
  | cons c rest ih =>
    by_cases harea : t.min_area < c.area ∧ c.area < t.max_area
    · by_cases hm : c.m00 ≠ 0
      · simp only [countLoop, if_pos harea, if_pos hm]
        exact ih _
      · simp only [countLoop, if_pos harea, if_neg hm]
        exact ih t
    · simp only [countLoop, if_neg harea]
      exact ih t

theorem countLoop_skip (t : Tracker) (now : String) (c : Contour)
    (cs₁ cs₂ : List Contour) (h : passes t c = false) :
    countLoop t now (cs₁ ++ c :: cs₂) = countLoop t now (cs₁ ++ cs₂) := by
  induction cs₁ generalizing t with
  | nil =>
    simp only [List.nil_append]
    rw [countLoop]
    by_cases harea : t.min_area < c.area ∧ c.area < t.max_area
    · rw [if_pos harea]
      have hm : ¬ c.m00 ≠ 0 := by
        intro hm
        have hpt := (passes_iff t c).mpr ⟨harea.1, harea.2, hm⟩
        rw [h] at hpt
        exact Bool.noConfusion hpt
      rw [if_neg hm]
    · rw [if_neg harea]
  | cons d rest ih =>
    simp only [List.cons_append, countLoop]
    by_cases hd : t.min_area < d.area ∧ d.area < t.max_area
    · by_cases hm : d.m00 ≠ 0
      · have h' : passes { t with debris_counter := t.debris_counter + 1 } c = false := by
          rw [passes_set_counter]
          exact h
        simp only [if_pos hd, if_pos hm, List.append_eq]
        rw [ih _ h']
      · simp only [if_pos hd, if_neg hm]
        exact ih t h
    · simp only [if_neg hd]
      exact ih t h

theorem countLoopV2_eq_countLoop (t : Tracker) (now : String) (cs : List Contour) :
    countLoopV2 t now cs = countLoop t now cs := by
  induction cs generalizing t with
  | nil => rfl
  | cons c rest ih => simp only [countLoopV2, countLoop, ih]

theorem count_counter (t : Tracker) (pipe : Option (List Contour)) (now : String) :
    (count_and_track_debris t pipe now).1.debris_counter =
      t.debris_counter + (count_and_track_debris t pipe now).2.length := by
  cases pipe with
  | none => simp [count_and_track_debris]
  | some cs => simpa [count_and_track_debris] using countLoop_counter t now cs

theorem count_frame (t : Tracker) (pipe : Option (List Contour)) (now : String) :
    (count_and_track_debris t pipe now).1.frame_number = t.frame_number := by
  cases pipe with
  | none => rfl
  | some cs => exact countLoop_frame t now cs

theorem count_data (t : Tracker) (pipe : Option (List Contour)) (now : String) :
    (count_and_track_debris t pipe now).1.debris_data = t.debris_data := by
  cases pipe with
  | none => rfl
  | some cs => exact countLoop_data t now cs

theorem count_active (t : Tracker) (pipe : Option (List Contour)) (now : String) :
    (count_and_track_debris t pipe now).1.thread_active = t.thread_active := by
  cases pipe with
  | none => rfl
  | some cs => exact countLoop_active t now cs

theorem count_rec_frames (t : Tracker) (pipe : Option (List Contour)) (now : String) :
    ∀ r ∈ (count_and_track_debris t pipe now).2, recFrame r = (t.frame_number : Int) := by
  cases pipe with
  | none => simp [count_and_track_debris]
  | some cs =>
    intro r hr
    simp only [count_and_track_debris, countLoop_records] at hr
    obtain ⟨c, _, rfl⟩ := List.mem_map.mp hr
    rfl

/-! ## Lemmas about the capture loop -/

theorem processFrame_frame (t : Tracker) (pipe : Option (List Contour)) (now : String) :
    (processFrame t pipe now).frame_number = t.frame_number + 1 := by
  simp [processFrame, count_frame]

theorem processFrame_active (t : Tracker) (pipe : Option (List Contour)) (now : String) :
    (processFrame t pipe now).thread_active = t.thread_active := by
  simp [processFrame, count_active]

theorem processFrame_data (t : Tracker) (pipe : Option (List Contour)) (now : String) :
    (processFrame t pipe now).debris_data =
      t.debris_data ++
        (count_and_track_debris { t with frame_number := t.frame_number + 1 } pipe now).2 := by
  simp [processFrame, count_data]

theorem update_goods (t : Tracker) (goods rest : List FrameInput)
    (ht : t.thread_active = true)
    (hg : ∀ i ∈ goods, i.fetch ≠ none ∧ i.quitKey = false) :
    ∃ t', update_debris_info t (goods ++ rest) = update_debris_info t' rest ∧
      t'.frame_number = t.frame_number + goods.length ∧
      t'.thread_active = true := by
  induction goods generalizing t with
  | nil => exact ⟨t, rfl, by simp, ht⟩
  | cons i goods ih =>
    obtain ⟨hf, hq⟩ := hg i (List.mem_cons_self i goods)
    obtain ⟨pipe, hpipe⟩ := Option.ne_none_iff_exists'.mp hf
    obtain ⟨t', heq, hfr, hact⟩ :=
      ih (processFrame t pipe i.now)
        (by rw [processFrame_active]; exact ht)
        (fun j hj => hg j (List.mem_cons_of_mem i hj))
    refine ⟨t', ?_, ?_, hact⟩
    · rw [List.cons_append, update_debris_info]
      simp only [ht, if_true, hpipe, hq]
      simpa using heq
    · rw [hfr, processFrame_frame]
      simp [List.length_cons]
      omega

theorem update_all_goods (t : Tracker) (inputs : List FrameInput)
    (ht : t.thread_active = true)
    (hg : ∀ i ∈ inputs, i.fetch ≠ none ∧ i.quitKey = false) :
    (update_debris_info t inputs).frame_number = t.frame_number + inputs.length := by
  obtain ⟨t', heq, hfr, _⟩ := update_goods t inputs [] ht hg
  rw [List.append_nil] at heq
  rw [heq]
  exact hfr

theorem update_fail_frame (t : Tracker) (goods : List FrameInput)
    (failInp : FrameInput) (rest : List FrameInput)
    (ht : t.thread_active = true)
    (hg : ∀ i ∈ goods, i.fetch ≠ none ∧ i.quitKey = false)
    (hfail : failInp.fetch = none) :
    (update_debris_info t (goods ++ failInp :: rest)).frame_number =
      t.frame_number + goods.length := by
  obtain ⟨t', heq, hfr, hact⟩ := update_goods t goods (failInp :: rest) ht hg
  rw [heq, update_debris_info]
  simp only [hact, if_true, hfail]
  exact hfr

theorem pairwise_le_of_const {l : List Int} {v : Int} (h : ∀ x ∈ l, x = v) :
    List.Pairwise (· ≤ ·) l := by
  induction l with
  | nil => exact List.Pairwise.nil
  | cons a l ih =>
    refine List.Pairwise.cons ?_ (ih fun x hx => h x (List.mem_cons_of_mem _ hx))
    intro b hb
    rw [h a (List.mem_cons_self _ _), h b (List.mem_cons_of_mem _ hb)]

theorem processFrame_inv (t : Tracker) (pipe : Option (List Contour)) (now : String)
    (h1 : List.Pairwise (· ≤ ·) (t.debris_data.map recFrame))
    (h2 : ∀ f ∈ t.debris_data.map recFrame, f ≤ (t.frame_number : Int)) :
    List.Pairwise (· ≤ ·) ((processFrame t pipe now).debris_data.map recFrame) ∧
      ∀ f ∈ (processFrame t pipe now).debris_data.map recFrame,
        f ≤ ((processFrame t pipe now).frame_number : Int) := by
  have hdata := processFrame_data t pipe now
  have hframe := processFrame_frame t pipe now
  set t1 : Tracker := { t with frame_number := t.frame_number + 1 } with ht1
  have hnew : ∀ f ∈ ((count_and_track_debris t1 pipe now).2).map recFrame,
      f = ((t.frame_number + 1 : Nat) : Int) := by
    intro f hf
    obtain ⟨r, hr, rfl⟩ := List.mem_map.mp hf
    exact count_rec_frames t1 pipe now r hr
  constructor
  · rw [hdata, List.map_append]
    rw [List.pairwise_append]
    refine ⟨h1, pairwise_le_of_const hnew, ?_⟩
    intro a ha b hb
    have hb' := hnew b hb
    have ha' := h2 a ha
    omega
  · intro f hf
    rw [hdata, List.map_append] at hf
    rw [hframe]
    rcases List.mem_append.mp hf with h | h
    · have := h2 f h
      omega
    · have := hnew f h
      omega

theorem update_inv (t : Tracker) (inputs : List FrameInput)
    (h1 : List.Pairwise (· ≤ ·) (t.debris_data.map recFrame))
    (h2 : ∀ f ∈ t.debris_data.map recFrame, f ≤ (t.frame_number : Int)) :
    List.Pairwise (· ≤ ·) ((update_debris_info t inputs).debris_data.map recFrame) ∧
      ∀ f ∈ (update_debris_info t inputs).debris_data.map recFrame,
        f ≤ ((update_debris_info t inputs).frame_number : Int) := by
  induction inputs generalizing t with
  | nil => exact ⟨h1, h2⟩
  | cons i rest ih =>
    rw [update_debris_info]
    cases ht : t.thread_active with
    | false => exact ⟨h1, h2⟩
    | true =>
      cases hf : i.fetch with
      | none => exact ⟨h1, h2⟩
      | some pipe =>
        have hstep := processFrame_inv t pipe i.now h1 h2
        cases hq : i.quitKey with
        | true => exact hstep
        | false => exact ih (processFrame t pipe i.now) hstep.1 hstep.2

/-! ## Lemmas about persistence -/

theorem row_decode (dec : String → Option String) (enc : String → String)
    (hinv : ∀ s, dec (enc s) = some s) (r : List PyVal) :
    decodeCells dec (r.map (fun item => enc (pyStr item))) = some (r.map pyStr) := by
  induction r with
  | nil => rfl
  | cons a l ih => simp [List.map_cons, decodeCells, hinv, ih]

theorem rows_decode (dec : String → Option String) (enc : String → String)
    (hinv : ∀ s, dec (enc s) = some s) (l : List (List PyVal)) :
    decodeRows dec (l.map (fun r => r.map (fun item => enc (pyStr item)))) =
      some (l.map (fun r => r.map pyStr)) := by
  induction l with
  | nil => rfl
  | cons r l ih => simp [List.map_cons, decodeRows, row_decode dec enc hinv, ih]

theorem loadRows_ok (dec : String → Option String) (rows : List (List String))
    (ds : List (List String)) (h : decodeRows dec rows = some ds)
    (acc : List (List PyVal)) :
    loadRows dec rows acc = acc ++ ds.map (List.map PyVal.str) := by
  induction rows generalizing ds acc with
  | nil =>
    simp only [decodeRows, Option.some.injEq] at h
    subst h
    simp [loadRows]
  | cons row rest ih =>
    cases hrow : decodeCells dec row with
    | none => simp [decodeRows, hrow] at h
    | some cells =>
      cases hrest : decodeRows dec rest with
      | none => simp [decodeRows, hrow, hrest] at h
      | some ds' =>
        have hds : ds = cells :: ds' := by
          simp [decodeRows, hrow, hrest] at h
          exact h.symm
        subst hds
        simp only [loadRows, hrow]
        rw [ih ds' hrest]
        simp

theorem loadRows_fail (dec : String → Option String) (goods : List (List String))
    (ds : List (List String)) (h : decodeRows dec goods = some ds)
    (bad : List String) (hbad : decodeCells dec bad = none)
    (rest : List (List String)) (acc : List (List PyVal)) :
    loadRows dec (goods ++ bad :: rest) acc = acc ++ ds.map (List.map PyVal.str) := by
  induction goods generalizing ds acc with
  | nil =>
    simp only [decodeRows, Option.some.injEq] at h
    subst h
    rw [List.nil_append]
    simp [loadRows, hbad]
  | cons row goods ih =>
    cases hrow : decodeCells dec row with
    | none => simp [decodeRows, hrow] at h
    | some cells =>
      cases hrest : decodeRows dec goods with
      | none => simp [decodeRows, hrow, hrest] at h
      | some ds' =>
        have hds : ds = cells :: ds' := by
          simp [decodeRows, hrow, hrest] at h
          exact h.symm
        subst hds
        rw [List.cons_append]
        simp only [loadRows, hrow]
        rw [ih ds' hrest]
        simp

theorem runCounts_counter (t : Tracker) (calls : List (Option (List Contour) × String)) :
    (runCounts t calls).1.debris_counter =
      t.debris_counter + ((runCounts t calls).2.map List.length).sum := by
  induction calls generalizing t with
  | nil => simp [runCounts]
  | cons call rest ih =>
    obtain ⟨pipe, now⟩ := call
    simp only [runCounts]
    rw [ih, count_counter]
    simp only [List.map_cons, List.sum_cons]
    omega

/-! ## Claim theorems -/

/-- Claim C3: a connected region yields a detection only if its pixel
area lies strictly inside the open interval (min_area, max_area): every
record returned by `count_and_track_debris` comes from a contour with
`min_area < area < max_area`, and a region whose area equals either
bound is excluded and contributes nothing to the result. -/
theorem c3_area_filter_strict :
    (∀ (t : Tracker) (now : String) (cs : List Contour) (r : List PyVal),
        r ∈ (count_and_track_debris t (some cs) now).2 →
        ∃ c ∈ cs, t.min_area < c.area ∧ c.area < t.max_area ∧
          r = mkDetection t.frame_number now c) ∧
    (∀ (t : Tracker) (now : String) (cs₁ cs₂ : List Contour) (c : Contour),
        c.area = t.min_area ∨ c.area = t.max_area →
        count_and_track_debris t (some (cs₁ ++ c :: cs₂)) now =
          count_and_track_debris t (some (cs₁ ++ cs₂)) now) := by
  constructor
  · intro t now cs r hr
    simp only [count_and_track_debris, countLoop_records] at hr
    obtain ⟨c, hc, rfl⟩ := List.mem_map.mp hr
    obtain ⟨hmem, hp⟩ := List.mem_filter.mp hc
    obtain ⟨hmin, hmax, _⟩ := (passes_iff t c).mp hp
    exact ⟨c, hmem, hmin, hmax, rfl⟩
  · intro t now cs₁ cs₂ c hc
    have hp : passes t c = false := by
      rcases hc with h | h <;> simp [passes, h]
    simp only [count_and_track_debris]
    exact countLoop_skip t now c cs₁ cs₂ hp

/-- Witness for C3: with thresholds (50, 1000), the record produced for
the area-120 contour is traced back to a contour strictly inside the
open interval. -/
theorem c3_area_filter_strict_witness :
    ∃ c ∈ [Contour.mk 120 120 6000 3600],
      (Tracker.mk 1 [] 0 50 1000 true true).min_area < c.area ∧
        c.area < (Tracker.mk 1 [] 0 50 1000 true true).max_area ∧
        mkDetection 1 "now" (Contour.mk 120 120 6000 3600) =
          mkDetection (Tracker.mk 1 [] 0 50 1000 true true).frame_number "now" c :=
  c3_area_filter_strict.1 (Tracker.mk 1 [] 0 50 1000 true true) "now"
    [Contour.mk 120 120 6000 3600]
    (mkDetection 1 "now" (Contour.mk 120 120 6000 3600)) (by decide)

/-- Claim C4: for a surviving region with nonzero area moment, the
emitted record's coordinates are the truncated quotients of the first
moments by the area moment; in particular, a blob with m00 = 120,
m10 = 6000, m01 = 3600 under thresholds (50, 1000) yields exactly one
record with x = 50, y = 30. -/
theorem c4_centroid_truncated :
    (∀ (t : Tracker) (now : String) (c : Contour),
        t.min_area < c.area → c.area < t.max_area → c.m00 ≠ 0 →
        (count_and_track_debris t (some [c]) now).2 =
          [[PyVal.int (t.frame_number : Int), PyVal.str "Space Debris", PyVal.str now,
            PyVal.int (c.m10.tdiv c.m00), PyVal.int (c.m01.tdiv c.m00)]]) ∧
    (count_and_track_debris (Tracker.mk 1 [] 0 50 1000 true true)
        (some [Contour.mk 120 120 6000 3600]) "now").2 =
      [[PyVal.int 1, PyVal.str "Space Debris", PyVal.str "now",
        PyVal.int 50, PyVal.int 30]] := by
  constructor
  · intro t now c h1 h2 h3
    have hp : passes t c = true := (passes_iff t c).mpr ⟨h1, h2, h3⟩
    simp [count_and_track_debris, countLoop_records, List.filter_cons, hp, mkDetection]
  · decide

/-- Witness for C4: the general centroid formula applied at a concrete
passing contour. -/
theorem c4_centroid_truncated_witness :
    (count_and_track_debris (Tracker.mk 2 [] 0 50 1000 true true)
        (some [Contour.mk 120 120 6000 3600]) "ts").2 =
      [[PyVal.int ((2 : Nat) : Int), PyVal.str "Space Debris", PyVal.str "ts",
        PyVal.int (Int.tdiv 6000 120), PyVal.int (Int.tdiv 3600 120)]] :=
  c4_centroid_truncated.1 (Tracker.mk 2 [] 0 50 1000 true true) "ts"
    (Contour.mk 120 120 6000 3600) (by decide) (by decide) (by decide)

/-- Claim C7: a region whose area moment m00 is zero is skipped and
emits no record (removing it from the contour list changes nothing),
and every emitted record comes from a contour with m00 ≠ 0, so the
centroid divisions never see a zero divisor. -/
theorem c7_zero_moment_guard :
    (∀ (t : Tracker) (now : String) (cs₁ cs₂ : List Contour) (c : Contour),
        c.m00 = 0 →
        count_and_track_debris t (some (cs₁ ++ c :: cs₂)) now =
          count_and_track_debris t (some (cs₁ ++ cs₂)) now) ∧
    (∀ (t : Tracker) (now : String) (cs : List Contour) (r : List PyVal),
        r ∈ (count_and_track_debris t (some cs) now).2 →
        ∃ c ∈ cs, c.m00 ≠ 0 ∧ r = mkDetection t.frame_number now c) := by
  constructor
  · intro t now cs₁ cs₂ c hc
    have hp : passes t c = false := by simp [passes, hc]
    simp only [count_and_track_debris]
    exact countLoop_skip t now c cs₁ cs₂ hp
  · intro t now cs r hr
    simp only [count_and_track_debris, countLoop_records] at hr
    obtain ⟨c, hc, rfl⟩ := List.mem_map.mp hr
    obtain ⟨hmem, hp⟩ := List.mem_filter.mp hc
    obtain ⟨_, _, hm⟩ := (passes_iff t c).mp hp
    exact ⟨c, hmem, hm, rfl⟩

/-- Witness for C7: a contour with area 120 (inside the thresholds) but
m00 = 0 is dropped without affecting the result. -/
theorem c7_zero_moment_guard_witness :
    count_and_track_debris (Tracker.mk 1 [] 0 50 1000 true true)
        (some ([] ++ Contour.mk 120 0 6000 3600 :: [Contour.mk 120 120 6000 3600])) "ts" =
      count_and_track_debris (Tracker.mk 1 [] 0 50 1000 true true)
        (some ([] ++ [Contour.mk 120 120 6000 3600])) "ts" :=
  c7_zero_moment_guard.1 (Tracker.mk 1 [] 0 50 1000 true true) "ts" []
    [Contour.mk 120 120 6000 3600] (Contour.mk 120 0 6000 3600) (by decide)

/-- Claim C9: on any frame where the cv2 stage succeeds, the two source
files' `count_and_track_debris` run the same pipeline: identical
tracker state, contours and timestamp give exactly the same state
update and the same sequence of detection records. -/
theorem c9_variants_same_records :
    ∀ (t : Tracker) (cs : List Contour) (now : String),
      count_and_track_debris_v2 t (some cs) now =
        Except.ok (count_and_track_debris t (some cs) now) := by
  intro t cs now
  simp [count_and_track_debris_v2, count_and_track_debris, countLoopV2_eq_countLoop]

/-- Claim C10: after any sequence of `count_and_track_debris` calls
since construction, `debris_counter` equals the total number of records
those calls returned; each call advances it by exactly the number of
records it returns, and no other state operation touches it. -/
theorem c10_debris_counter_invariant :
    (∀ (minA maxA : Int) (vis : Bool) (calls : List (Option (List Contour) × String)),
        (runCounts (initTracker minA maxA vis) calls).1.debris_counter =
          ((runCounts (initTracker minA maxA vis) calls).2.map List.length).sum) ∧
    (∀ (t : Tracker) (pipe : Option (List Contour)) (now : String),
        (count_and_track_debris t pipe now).1.debris_counter =
          t.debris_counter + (count_and_track_debris t pipe now).2.length) ∧
    (∀ (dec : String → Option String) (t : Tracker) (file : Option (List (List String))),
        (load_debris_data dec t file).debris_counter = t.debris_counter) ∧
    (∀ (t : Tracker) (a : Int), (set_min_area t a).debris_counter = t.debris_counter) ∧
    (∀ (t : Tracker) (a : Int), (set_max_area t a).debris_counter = t.debris_counter) ∧
    (∀ (t : Tracker), (toggle_visualization t).debris_counter = t.debris_counter) ∧
    (∀ (t : Tracker), (start_tracking t).debris_counter = t.debris_counter) ∧
    (∀ (t : Tracker), (stop_tracking t).debris_counter = t.debris_counter) := by
  refine ⟨?_, count_counter, ?_, fun t a => rfl, fun t a => rfl,
    fun t => rfl, fun t => rfl, fun t => rfl⟩
  · intro minA maxA vis calls
    have h := runCounts_counter (initTracker minA maxA vis) calls
    simpa [initTracker] using h
  · intro dec t file
    cases file with
    | none => rfl
    | some rows =>
      cases rows with
      | nil => rfl
      | cons hdr dataRows => rfl

/-- Claim C5: if the device fetch fails on iteration n+1 of a run with
`thread_active = true`, the capture loop of `code1.py` terminates (a
total function of its inputs, so no exception reaches the controller)
with `frame_number` frozen at n, regardless of any further queued
inputs; and on a run where every fetch succeeds (and no quit key is
seen), the loop never stops early — fetch failure is the only condition
that ends it by itself. -/
theorem c5_fetch_failure_ends_loop :
    (∀ (t : Tracker) (goods : List FrameInput) (failInp : FrameInput)
        (rest : List FrameInput),
        t.thread_active = true →
        (∀ i ∈ goods, i.fetch ≠ none ∧ i.quitKey = false) →
        failInp.fetch = none →
        (update_debris_info t (goods ++ failInp :: rest)).frame_number =
          t.frame_number + goods.length) ∧
    (∀ (t : Tracker) (inputs : List FrameInput),
        t.thread_active = true →
        (∀ i ∈ inputs, i.fetch ≠ none ∧ i.quitKey = false) →
        (update_debris_info t inputs).frame_number =
          t.frame_number + inputs.length) := by
  constructor
  · intro t goods failInp rest ht hg hfail
    exact update_fail_frame t goods failInp rest ht hg hfail
  · intro t inputs ht hg
    exact update_all_goods t inputs ht hg

/-- Witness for C5: four successful fetches followed by a failed fetch
leave `frame_number` at 4. -/
theorem c5_fetch_failure_ends_loop_witness :
    (update_debris_info (start_tracking (initTracker 50 1000 true))
        ([FrameInput.mk (some (some [])) "t1" false,
          FrameInput.mk (some (some [])) "t2" false,
          FrameInput.mk (some (some [])) "t3" false,
          FrameInput.mk (some (some [])) "t4" false] ++
          FrameInput.mk none "t5" false :: [])).frame_number =
      (start_tracking (initTracker 50 1000 true)).frame_number + 4 :=
  c5_fetch_failure_ends_loop.1 (start_tracking (initTracker 50 1000 true))
    [FrameInput.mk (some (some [])) "t1" false,
     FrameInput.mk (some (some [])) "t2" false,
     FrameInput.mk (some (some [])) "t3" false,
     FrameInput.mk (some (some [])) "t4" false]
    (FrameInput.mk none "t5" false) [] (by decide) (by decide) (by decide)

/-- Claim C8: in every state the capture loop reaches from a fresh
tracker, the frame_number fields of the detection log, in insertion
order, are non-decreasing; and every record emitted by one
`count_and_track_debris` call carries that call's `frame_number`, so
detections of the same frame share it. -/
theorem c8_frame_numbers_monotone :
    (∀ (minA maxA : Int) (vis : Bool) (inputs : List FrameInput),
        List.Pairwise (· ≤ ·)
          ((update_debris_info (start_tracking (initTracker minA maxA vis))
              inputs).debris_data.map recFrame)) ∧
    (∀ (t : Tracker) (pipe : Option (List Contour)) (now : String)
        (r : List PyVal),
        r ∈ (count_and_track_debris t pipe now).2 →
        recFrame r = (t.frame_number : Int)) := by
  constructor
  · intro minA maxA vis inputs
    exact (update_inv (start_tracking (initTracker minA maxA vis)) inputs
      (by simp [start_tracking, initTracker])
      (by simp [start_tracking, initTracker])).1
  · exact count_rec_frames

/-- Witness for C8: the record emitted at frame 2 carries frame number 2. -/
theorem c8_frame_numbers_monotone_witness :
    recFrame [PyVal.int ((2 : Nat) : Int), PyVal.str "Space Debris", PyVal.str "ts",
        PyVal.int 50, PyVal.int 30] =
      ((2 : Nat) : Int) :=
  c8_frame_numbers_monotone.2 (Tracker.mk 2 [] 0 50 1000 true true)
    (some [Contour.mk 120 120 6000 3600]) "ts"
    [PyVal.int ((2 : Nat) : Int), PyVal.str "Space Debris", PyVal.str "ts",
     PyVal.int 50, PyVal.int 30] (by decide)

/-- Counterexample for C1: even with a per-field encoder and decoder
that are true inverses (here the identity codec), saving a non-empty
log and loading it back does not reproduce the log field-for-field:
`load_debris_data` installs tuples of strings and never parses the
numeric fields back. -/
theorem c1_roundtrip_cex :
    (∀ s : String, (fun s => some s) ((fun s : String => s) s) = some s) ∧
    (load_debris_data (fun s => some s)
        (Tracker.mk 1
          [[PyVal.int 1, PyVal.str "Space Debris", PyVal.str "2024-01-01 00:00:00",
            PyVal.int 50, PyVal.int 30]] 1 50 1000 false true)
        (some (save_debris_data (fun s => s)
          (Tracker.mk 1
            [[PyVal.int 1, PyVal.str "Space Debris", PyVal.str "2024-01-01 00:00:00",
              PyVal.int 50, PyVal.int 30]] 1 50 1000 false true)))).debris_data ≠
      [[PyVal.int 1, PyVal.str "Space Debris", PyVal.str "2024-01-01 00:00:00",
        PyVal.int 50, PyVal.int 30]] :=
  ⟨fun s => rfl, by decide⟩

/-- Claim C1 as amended: when the stored cell text is the encoder's
output and decode inverts encode, loading a saved log yields the log
with every field replaced by the string form of itself (Python `str`),
not the original typed fields. -/
theorem c1_roundtrip_stringified (enc : String → String) (dec : String → Option String)
    (hinv : ∀ s, dec (enc s) = some s) (t : Tracker) (_hne : t.debris_data ≠ []) :
    (load_debris_data dec t (some (save_debris_data enc t))).debris_data =
      t.debris_data.map (fun r => r.map (fun item => PyVal.str (pyStr item))) := by
  simp only [save_debris_data, load_debris_data]
  rw [loadRows_ok dec _ _ (rows_decode dec enc hinv t.debris_data)]
  simp [List.map_map, Function.comp]

/-- Witness for the amended C1 at the identity codec and a one-record log. -/
theorem c1_roundtrip_stringified_witness :
    (load_debris_data (fun s => some s)
        (Tracker.mk 1 [[PyVal.int 1, PyVal.str "Space Debris"]] 1 50 1000 false true)
        (some (save_debris_data (fun s => s)
          (Tracker.mk 1 [[PyVal.int 1, PyVal.str "Space Debris"]] 1 50 1000
            false true)))).debris_data =
      (Tracker.mk 1 [[PyVal.int 1, PyVal.str "Space Debris"]] 1 50 1000
        false true).debris_data.map
        (fun r => r.map (fun item => PyVal.str (pyStr item))) :=
  c1_roundtrip_stringified (fun s => s) (fun s => some s) (fun s => rfl)
    (Tracker.mk 1 [[PyVal.int 1, PyVal.str "Space Debris"]] 1 50 1000 false true)
    (by decide)

/-- Counterexample for C2: loading a file whose second data row fails to
decode does not leave the log as it was — the prior log `[[int 7]]` is
replaced by the decoded prefix `[["good"]]` of the file, a
partially-decoded log. -/
theorem c2_load_not_atomic_cex :
    (load_debris_data (fun s => if s = "BAD" then none else some s)
        (Tracker.mk 9 [[PyVal.int 7]] 3 50 1000 false true)
        (some [csvHeader, ["good"], ["BAD"]])).debris_data =
      [[PyVal.str "good"]] ∧
    ([[PyVal.str "good"]] : List (List PyVal)) ≠
      (Tracker.mk 9 [[PyVal.int 7]] 3 50 1000 false true).debris_data :=
  ⟨by decide, by decide⟩

/-- Claim C2 as amended: when a field of some row fails to decode, the
load aborts without raising, but the detection log is replaced by the
prefix of rows decoded before the failure (the failing row itself is
not installed); the prior log survives only when the file cannot be
opened at all. -/
theorem c2_load_failure_keeps_prefix (dec : String → Option String) (t : Tracker)
    (hdr : List String) (goods : List (List String)) (ds : List (List String))
    (hg : decodeRows dec goods = some ds)
    (bad : List String) (hbad : decodeCells dec bad = none)
    (rest : List (List String)) :
    (load_debris_data dec t (some (hdr :: (goods ++ bad :: rest)))).debris_data =
        ds.map (List.map PyVal.str) ∧
      load_debris_data dec t none = t := by
  constructor
  · simp only [load_debris_data]
    rw [loadRows_fail dec goods ds hg bad hbad rest []]
    simp
  · rfl

/-- Witness for the amended C2 at a concrete file with one good and one
undecodable row. -/
theorem c2_load_failure_keeps_prefix_witness :
    (load_debris_data (fun s => if s = "BAD" then none else some s)
        (Tracker.mk 9 [[PyVal.int 7]] 3 50 1000 false true)
        (some (csvHeader :: ([["good"]] ++ ["BAD"] :: [])))).debris_data =
        ([["good"]] : List (List String)).map (List.map PyVal.str) ∧
      load_debris_data (fun s => if s = "BAD" then none else some s)
        (Tracker.mk 9 [[PyVal.int 7]] 3 50 1000 false true) none =
        Tracker.mk 9 [[PyVal.int 7]] 3 50 1000 false true :=
  c2_load_failure_keeps_prefix (fun s => if s = "BAD" then none else some s)
    (Tracker.mk 9 [[PyVal.int 7]] 3 50 1000 false true) csvHeader
    [["good"]] [["good"]] (by decide) ["BAD"] (by decide) []

/-- Counterexample for C6: in `space_debris_tracker.py` a failure inside
the per-frame pipeline is not caught — it propagates out of
`count_and_track_debris` and terminates the capture loop with an
exception instead of being treated as zero detections. -/
theorem c6_uncaught_pipeline_error_cex :
    update_debris_info_v2 (start_tracking (initTracker 50 1000 true))
        [FrameInput.mk (some none) "t" false] = Except.error () := rfl

/-- Claim C6 as amended: in `code1.py` a pipeline failure is caught and
treated as zero detections and the loop continues with the next
iteration; in `space_debris_tracker.py` there is no handler, so the
failure escapes `count_and_track_debris`. -/
theorem c6_pipeline_errors_handled_only_in_code1 :
    (∀ (t : Tracker) (now : String), count_and_track_debris t none now = (t, [])) ∧
    (∀ (t : Tracker) (now : String) (rest : List FrameInput),
        t.thread_active = true →
        update_debris_info t (FrameInput.mk (some none) now false :: rest) =
          update_debris_info { t with frame_number := t.frame_number + 1 } rest) ∧
    (∀ (t : Tracker) (now : String),
        count_and_track_debris_v2 t none now = Except.error ()) := by
  refine ⟨fun t now => rfl, ?_, fun t now => rfl⟩
  intro t now rest ht
  have h3 : processFrame t none now = { t with frame_number := t.frame_number + 1 } := by
    simp [processFrame, count_and_track_debris]
  simp [update_debris_info, ht, h3]

/-- Witness for the amended C6: a pipeline failure on the first frame of
an active run advances the frame counter and keeps the loop going. -/
theorem c6_pipeline_errors_handled_only_in_code1_witness :
    update_debris_info (Tracker.mk 0 [] 0 50 1000 true true)
        [FrameInput.mk (some none) "ts" false] =
      update_debris_info (Tracker.mk 1 [] 0 50 1000 true true) [] :=
  c6_pipeline_errors_handled_only_in_code1.2.1
    (Tracker.mk 0 [] 0 50 1000 true true) "ts" [] rfl
